import Mathlib

/-!
Verification of the merchant access-lifecycle core of the salon booking
platform.  The definitions below are a shallow embedding of the storage
operations in `src/server/postgres-storage.ts` (grant / renew / suspend /
sweep / access-settings update and the live-access predicate), of the
dev backend's sweep in the SQLite storage file, and of the PIX payment
polling loop in `src/client/src/components/auth/merchant-signup-form.tsx`.

Timestamps are modelled as integers (milliseconds); the JavaScript
`setDate(getDate() + d)` calendar arithmetic is modelled as adding a
fixed-length day of 86400000 ms.  Nullable columns are `Option`s.
-/

/-- One merchant row, restricted to the lifecycle-relevant columns of the
`merchants` table (see the schema in `migrate.js`). -/
structure Merchant where
  id : String
  status : String
  paymentStatus : String
  planStatus : String
  accessStartDate : Option Int
  accessEndDate : Option Int
  accessDurationDays : Option Nat
  lastPaymentDate : Option Int
  nextPaymentDue : Option Int
  monthlyFee : Option Int
  updatedAt : Int
deriving Repr, DecidableEq

/-- Milliseconds in one day. -/
def msPerDay : Int := 86400000

/-- `addDays t d` is the timestamp `d` days after `t`. -/
def addDays (t : Int) (d : Nat) : Int := t + d * msPerDay

/-- Row lookup by id: `SELECT ... WHERE id = ...` returning the first match. -/
def lookupMerchant (st : List Merchant) (mid : String) : Option Merchant :=
  st.find? (fun m => m.id == mid)

/-- The column values written by `grantMerchantAccess` (postgres-storage.ts):
`status="active"`, `accessStartDate=now`, `accessEndDate=now+durationDays`,
`accessDurationDays=durationDays`, `lastPaymentDate=now`,
`nextPaymentDue=accessEndDate+durationDays`, `paymentStatus="paid"`,
`updatedAt=now`, and `monthlyFee` only when the argument is given. -/
def applyGrant (x : Merchant) (durationDays : Nat) (fee : Option Int) (now : Int) : Merchant :=
  let accessEnd := addDays now durationDays
  { x with
    status := "active"
    accessStartDate := some now
    accessEndDate := some accessEnd
    accessDurationDays := some durationDays
    lastPaymentDate := some now
    nextPaymentDue := some (addDays accessEnd durationDays)
    paymentStatus := "paid"
    updatedAt := now
    monthlyFee := match fee with
      | some f => some f
      | none => x.monthlyFee }

/-- `grantMerchantAccess`: an `UPDATE ... WHERE id = ... RETURNING` — every
matching row gets the grant columns, and the returned row is looked up in
the updated store (`none` when the id does not exist). -/
def grantMerchantAccess (st : List Merchant) (mid : String) (durationDays : Nat)
    (fee : Option Int) (now : Int) : Option Merchant × List Merchant :=
  let st' := st.map (fun x => if x.id == mid then applyGrant x durationDays fee now else x)
  (lookupMerchant st' mid, st')

/-- The JavaScript fallback `merchant.accessDurationDays || 30`: both a null
and a zero stored duration fall back to 30. -/
def durationOrDefault (d : Option Nat) : Nat :=
  match d with
  | none => 30
  | some 0 => 30
  | some (Nat.succ k) => Nat.succ k

/-- The column values written by `renewMerchantAccess`, computed from the
row `m` that was read (`currentEndDate = accessEndDate ?? now`;
`baseDate = currentEndDate > now ? currentEndDate : now`;
`newEndDate = baseDate + durationDays`) and applied to a matching row `x`. -/
def applyRenewRow (m : Merchant) (now : Int) (x : Merchant) : Merchant :=
  let currentEnd := m.accessEndDate.getD now
  let base := if now < currentEnd then currentEnd else now
  let d := durationOrDefault m.accessDurationDays
  let newEnd := addDays base d
  { x with
    status := "active"
    accessStartDate := some (m.accessStartDate.getD now)
    accessEndDate := some newEnd
    lastPaymentDate := some now
    nextPaymentDue := some (addDays newEnd d)
    paymentStatus := "paid"
    updatedAt := now }

/-- The renewed version of a single merchant row. -/
def applyRenew (m : Merchant) (now : Int) : Merchant := applyRenewRow m now m

/-- `renewMerchantAccess`: reads the merchant (returning `none` when absent),
computes the renewal columns from the row read, then updates and returns. -/
def renewMerchantAccess (st : List Merchant) (mid : String) (now : Int) :
    Option Merchant × List Merchant :=
  match lookupMerchant st mid with
  | none => (none, st)
  | some m =>
      let st' := st.map (fun x => if x.id == mid then applyRenewRow m now x else x)
      (lookupMerchant st' mid, st')

/-- The column values written by `suspendMerchantAccess` and by the sweep's
per-row update: `status="payment_pending"`, `updatedAt=now`. -/
def applySuspend (x : Merchant) (now : Int) : Merchant :=
  { x with status := "payment_pending", updatedAt := now }

/-- `suspendMerchantAccess`: update the matching rows, then `getMerchant`. -/
def suspendMerchantAccess (st : List Merchant) (mid : String) (now : Int) :
    Option Merchant × List Merchant :=
  let st' := st.map (fun x => if x.id == mid then applySuspend x now else x)
  (lookupMerchant st' mid, st')

/-- The sweep's selection predicate: `status = "active" AND accessEndDate <= now`
(SQL `lte` on a NULL `accessEndDate` selects nothing). -/
def expiredActive (m : Merchant) (now : Int) : Bool :=
  m.status == "active" &&
    (match m.accessEndDate with
     | some e => decide (e ≤ now)
     | none => false)

/-- `processExpiredAccess` (PostgreSQL backend): select the expired active
merchants, demote each to `payment_pending`, return how many were selected. -/
def processExpiredAccess (st : List Merchant) (now : Int) : Nat × List Merchant :=
  ((st.filter (fun m => expiredActive m now)).length,
   st.map (fun m => if expiredActive m now then applySuspend m now else m))

/-- `processExpiredAccess` (SQLite dev backend): a stub that always returns 0
and touches nothing. -/
def sqliteProcessExpiredAccess (st : List Merchant) (_now : Int) : Nat × List Merchant :=
  (0, st)

/-- An `updateMerchantAccessSettings` payload: each outer `some` marks a column
present in the spread `{...settings}`; the inner value (possibly `none`, i.e.
SQL NULL) is written verbatim, with no validation. -/
structure AccessSettings where
  status : Option String := none
  paymentStatus : Option String := none
  accessStartDate : Option (Option Int) := none
  accessEndDate : Option (Option Int) := none
  accessDurationDays : Option (Option Nat) := none
  monthlyFee : Option (Option Int) := none
deriving Repr

/-- The row update performed by `updateMerchantAccessSettings`:
`{...settings, updatedAt: now}`. -/
def applyAccessSettings (p : AccessSettings) (now : Int) (x : Merchant) : Merchant :=
  { x with
    status := p.status.getD x.status
    paymentStatus := p.paymentStatus.getD x.paymentStatus
    accessStartDate := p.accessStartDate.getD x.accessStartDate
    accessEndDate := p.accessEndDate.getD x.accessEndDate
    accessDurationDays := p.accessDurationDays.getD x.accessDurationDays
    monthlyFee := p.monthlyFee.getD x.monthlyFee
    updatedAt := now }

/-- `updateMerchantAccessSettings`: update matching rows with the payload. -/
def updateMerchantAccessSettings (st : List Merchant) (mid : String)
    (p : AccessSettings) (now : Int) : Option Merchant × List Merchant :=
  let st' := st.map (fun x => if x.id == mid then applyAccessSettings p now x else x)
  (lookupMerchant st' mid, st')

/-- The live-access predicate, the `activeAccess` filter of
`getMerchantsAccessStatus`: `status === "active" && (!accessEndDate ||
accessEndDate > now)`. -/
def liveAccess (m : Merchant) (now : Int) : Bool :=
  m.status == "active" &&
    (match m.accessEndDate with
     | none => true
     | some e => decide (now < e))

/-- The access-window invariant exactly as the spec states it: when
`accessEndDate` is present (and a start is recorded), it is `≥ accessStartDate`. -/
def accessWindowInv (m : Merchant) : Bool :=
  match m.accessEndDate, m.accessStartDate with
  | some e, some s => decide (s ≤ e)
  | some _, none => true
  | none, _ => true

/-- The strengthened well-formedness invariant: whenever `accessStartDate`
is present, `accessEndDate` is present too and is `≥ accessStartDate`. -/
def accessWindowWF (m : Merchant) : Bool :=
  match m.accessStartDate with
  | none => true
  | some s =>
      match m.accessEndDate with
      | none => false
      | some e => decide (s ≤ e)

/-!
The VIP PIX polling loop of `startPaymentStatusCheck` in
`merchant-signup-form.tsx`.  One tick is one firing of the 3-second
`setInterval` callback; the gateway's answer on a tick is either a charge
status or a thrown fetch error (which the `catch` swallows, so the loop
keeps polling).  The 30-minute `setTimeout` clears the interval, bounding
the loop at `pollTickLimit` ticks.
-/

/-- What one status-check tick observes. -/
inductive GatewayTick where
  | pending
  | approved
  | rejected
  | cancelled
  | fetchError
deriving Repr, DecidableEq

/-- How the polling loop ends: approved at some tick, rejected/cancelled at
some tick, or cleared by the 30-minute timeout. -/
inductive PollResult where
  | approvedAt (tick : Nat)
  | failedAt (tick : Nat)
  | timedOut
deriving Repr, DecidableEq

/-- `setInterval(..., 3000)`: the fixed polling period in milliseconds. -/
def pollIntervalMs : Nat := 3000

/-- `setTimeout(..., 30 * 60 * 1000)`: the hard ceiling in milliseconds. -/
def pollCeilingMs : Nat := 30 * 60 * 1000

/-- Number of interval ticks that fit before the ceiling clears the interval. -/
def pollTickLimit : Nat := pollCeilingMs / pollIntervalMs

/-- The interval callback, iterated: on `approved` the loop stops and the
plan is activated; on `rejected`/`cancelled` it stops as failed; on
`pending`, and on a caught fetch error, it polls again; when the fuel
(the tick budget the ceiling allows) runs out, the interval is cleared. -/
def runPoll (resp : Nat → GatewayTick) : Nat → Nat → PollResult
  | 0, _ => .timedOut
  | fuel + 1, k =>
      match resp k with
      | .approved => .approvedAt k
      | .rejected => .failedAt k
      | .cancelled => .failedAt k
      | .pending => runPoll resp fuel (k + 1)
      | .fetchError => runPoll resp fuel (k + 1)

/-- The UI `paymentStatus` once the flow started by `startPaymentStatusCheck`
is over.  `capturedStatus` is the value of the `paymentStatus` state variable
captured by the timeout closure when `startPaymentStatusCheck` was invoked:
the handler runs `setPaymentStatus('failed')` only when that captured value
equals `"processing"`; otherwise the state keeps the value `"processing"`
that `createPixPayment` stored before starting the check. -/
def startPaymentStatusCheck (capturedStatus : String) (resp : Nat → GatewayTick) : String :=
  match runPoll resp pollTickLimit 0 with
  | .approvedAt _ => "approved"
  | .failedAt _ => "failed"
  | .timedOut => if capturedStatus == "processing" then "failed" else "processing"

/-- The flow as `createPixPayment` runs it: `setPaymentStatus('processing')`
is an asynchronous React state update, so the closure created by the
immediately following `startPaymentStatusCheck(...)` call still captures the
render's previous value `"pending"`. -/
def vipPollFinalUiStatus (resp : Nat → GatewayTick) : String :=
  startPaymentStatusCheck "pending" resp

/-! Helper lemmas about the store-update pattern shared by the operations. -/

/-- Looking up `mid` after updating exactly the rows whose id is `mid` with an
id-preserving function yields the updated version of the old lookup result. -/
theorem lookupMerchant_map_update (st : List Merchant) (mid : String)
    (f : Merchant → Merchant) (hf : ∀ x, (f x).id = x.id) :
    lookupMerchant (st.map fun x => if x.id == mid then f x else x) mid
      = (lookupMerchant st mid).map f := by
  induction st with
  | nil => rfl
  | cons a t ih =>
      unfold lookupMerchant at *
      cases h : (a.id == mid) with
      | true =>
          have hfa : ((f a).id == mid) = true := by rw [hf a]; exact h
          rw [List.map_cons, if_pos h]
          simp only [List.find?_cons]
          rw [h, hfa]
          rfl
      | false =>
          have hne : ¬ (a.id == mid) = true := by rw [h]; exact Bool.false_ne_true
          rw [List.map_cons, if_neg hne]
          simp only [List.find?_cons]
          rw [h]
          exact ih

/-- A conditional row update whose condition holds nowhere is the identity. -/
theorem map_update_of_none (st : List Merchant) (p : Merchant → Bool)
    (f : Merchant → Merchant) (h : ∀ x ∈ st, ¬ p x = true) :
    (st.map fun x => if p x then f x else x) = st := by
  induction st with
  | nil => rfl
  | cons a t ih =>
      rw [List.map_cons, if_neg (h a (List.mem_cons_self a t)),
        ih (fun x hx => h x (List.mem_cons_of_mem a hx))]

/-- Pointwise relation between a store and its rowwise image. -/
theorem forall2_map_self (st : List Merchant) (R : Merchant → Merchant → Prop)
    (g : Merchant → Merchant) (h : ∀ x, R x (g x)) :
    List.Forall₂ R st (st.map g) := by
  induction st with
  | nil => exact List.Forall₂.nil
  | cons a t ih => exact List.Forall₂.cons (h a) ih

/-- The renewal's base date `currentEnd > now ? currentEnd : now` is the max. -/
theorem ite_base_eq_max (e now : Int) : (if now < e then e else now) = max e now := by
  by_cases h : now < e
  · rw [if_pos h, max_eq_left h.le]
  · rw [if_neg h, max_eq_right (le_of_not_lt h)]

/-- Adding days never moves a timestamp backward. -/
theorem le_addDays (t : Int) (d : Nat) : t ≤ addDays t d := by
  unfold addDays msPerDay
  have h : (0 : Int) ≤ (d : Int) * 86400000 :=
    mul_nonneg (Int.natCast_nonneg d) (by norm_num)
  omega

/-- A merchant demoted by the sweep or a suspension keeps its access window,
so the well-formedness invariant is untouched. -/
theorem accessWindowWF_applySuspend (m : Merchant) (now : Int) :
    accessWindowWF (applySuspend m now) = accessWindowWF m := rfl

/-- A merchant just demoted is no longer an expired *active* merchant. -/
theorem expiredActive_applySuspend (m : Merchant) (t now : Int) :
    expiredActive (applySuspend m t) now = false := by
  simp [expiredActive, applySuspend]

/-- Every row of the swept store fails the sweep's selection predicate. -/
theorem sweep_result_not_expired (st : List Merchant) (now : Int) :
    ∀ m2 ∈ (processExpiredAccess st now).2, expiredActive m2 now = false := by
  intro m2 hm2
  unfold processExpiredAccess at hm2
  obtain ⟨x, _, rfl⟩ := List.mem_map.mp hm2
  by_cases h : expiredActive x now = true
  · rw [if_pos h]
    exact expiredActive_applySuspend x now now
  · rw [if_neg h]
    exact Bool.not_eq_true _ |>.mp h

/-- On a store with no expired active merchant, the sweep is a no-op. -/
theorem sweep_noop_of_none (st : List Merchant) (now : Int)
    (h : ∀ m ∈ st, expiredActive m now = false) :
    processExpiredAccess st now = (0, st) := by
  unfold processExpiredAccess
  rw [List.filter_eq_nil_iff.mpr (fun m hm => by rw [h m hm]; exact Bool.false_ne_true),
    map_update_of_none st _ _ (fun x hx => by rw [h x hx]; exact Bool.false_ne_true)]
  rfl

/-! Sample records used to instantiate the theorems below on concrete data. -/

/-- An active, paid merchant whose access window is `[0, 10]`. -/
def demoMerchant : Merchant :=
  { id := "m1", status := "active", paymentStatus := "paid", planStatus := "vip",
    accessStartDate := some 0, accessEndDate := some 10, accessDurationDays := some 30,
    lastPaymentDate := some 0, nextPaymentDue := some 20, monthlyFee := some 5000,
    updatedAt := 0 }

/-- A freshly created merchant with no access window yet. -/
def demoPendingMerchant : Merchant :=
  { id := "m2", status := "pending", paymentStatus := "pending", planStatus := "free",
    accessStartDate := none, accessEndDate := none, accessDurationDays := some 30,
    lastPaymentDate := none, nextPaymentDue := none, monthlyFee := some 5000,
    updatedAt := 0 }

/-! Claim theorems. -/

/-- C4: `computeAccessState` (the `activeAccess` filter of
`getMerchantsAccessStatus`) reports live access exactly when the status is
`active` and the access end date is null or strictly in the future; at the
boundary `accessEndDate = now` the merchant is not live. -/
theorem C4_liveAccess_iff (m : Merchant) (now : Int) :
    (liveAccess m now = true ↔
      (m.status = "active" ∧
        (m.accessEndDate = none ∨ ∃ e, m.accessEndDate = some e ∧ now < e))) ∧
    (m.accessEndDate = some now → liveAccess m now = false) := by
  constructor
  · cases he : m.accessEndDate with
    | none => simp [liveAccess, he]
    | some e => simp [liveAccess, he]
  · intro he
    simp [liveAccess, he]

/-- C4 witness: the active merchant with end date 10 is expired at time 10
and live at time 9. -/
theorem C4_liveAccess_iff_witness :
    liveAccess demoMerchant 10 = false ∧ liveAccess demoMerchant 9 = true := by
  constructor
  · exact (C4_liveAccess_iff demoMerchant 10).2 rfl
  · exact ((C4_liveAccess_iff demoMerchant 9).1).mpr ⟨rfl, Or.inr ⟨10, rfl, by decide⟩⟩

/-- C10: the dev/SQLite backend's sweep always returns 0 and modifies no
merchant, and it agrees with the production/PostgreSQL sweep exactly on
stores holding no merchant that is both active and expired. -/
theorem C10_backend_divergence (st : List Merchant) (now : Int) :
    sqliteProcessExpiredAccess st now = (0, st) ∧
    (processExpiredAccess st now = sqliteProcessExpiredAccess st now ↔
      ∀ m ∈ st, expiredActive m now = false) := by
  refine ⟨rfl, Iff.intro ?_ ?_⟩
  · intro hEq m hm
    have h1 : (st.filter (fun m => expiredActive m now)).length = 0 :=
      congrArg Prod.fst hEq
    have h2 : st.filter (fun m => expiredActive m now) = [] :=
      List.length_eq_zero.mp h1
    exact Bool.eq_false_iff.mpr (List.filter_eq_nil_iff.mp h2 m hm)
  · intro hAll
    exact sweep_noop_of_none st now hAll

/-- C3: the sweep's returned count is the number of merchants that are active
with an elapsed end date, exactly those merchants are demoted to
`payment_pending` (every other row is returned untouched), and an immediate
second sweep changes nothing and returns 0. -/
theorem C3_sweep_exact_count_idempotent (st : List Merchant) (now : Int) :
    (processExpiredAccess st now).1
        = (st.filter (fun m => expiredActive m now)).length ∧
    List.Forall₂ (fun m m2 =>
        (expiredActive m now = true → m2.status = "payment_pending") ∧
        (expiredActive m now = false → m2 = m))
      st (processExpiredAccess st now).2 ∧
    processExpiredAccess (processExpiredAccess st now).2 now
        = (0, (processExpiredAccess st now).2) := by
  refine ⟨rfl, ?_, ?_⟩
  · exact forall2_map_self st _ _ (fun x => by
      constructor
      · intro hx
        rw [if_pos hx]
        rfl
      · intro hx
        rw [if_neg (by rw [hx]; exact Bool.false_ne_true)])
  · exact sweep_noop_of_none _ now (sweep_result_not_expired st now)

/-- C3 witness: on a store with one expired active merchant and one pending
merchant, the count matches the filter and the second sweep is a no-op. -/
theorem C3_sweep_exact_count_idempotent_witness :
    (processExpiredAccess [demoMerchant, demoPendingMerchant] 100).1
        = ([demoMerchant, demoPendingMerchant].filter
            (fun m => expiredActive m 100)).length ∧
    processExpiredAccess
        (processExpiredAccess [demoMerchant, demoPendingMerchant] 100).2 100
        = (0, (processExpiredAccess [demoMerchant, demoPendingMerchant] 100).2) :=
  ⟨(C3_sweep_exact_count_idempotent [demoMerchant, demoPendingMerchant] 100).1,
   (C3_sweep_exact_count_idempotent [demoMerchant, demoPendingMerchant] 100).2.2⟩

/-- C7: a merchant demoted by the sweep changes only its status (to
`payment_pending`) and the `updatedAt` bookkeeping timestamp; the access
window, payment fields and fee fields are untouched. -/
theorem C7_sweep_frame (st : List Merchant) (now : Int) :
    List.Forall₂ (fun m m2 =>
        expiredActive m now = true →
          m2.status = "payment_pending" ∧ m2.updatedAt = now ∧
          m2.accessEndDate = m.accessEndDate ∧
          m2.paymentStatus = m.paymentStatus ∧
          m2.accessStartDate = m.accessStartDate ∧
          m2.accessDurationDays = m.accessDurationDays ∧
          m2.monthlyFee = m.monthlyFee ∧
          m2.lastPaymentDate = m.lastPaymentDate ∧
          m2.nextPaymentDue = m.nextPaymentDue ∧
          m2.planStatus = m.planStatus ∧
          m2.id = m.id)
      st (processExpiredAccess st now).2 := by
  exact forall2_map_self st _ _ (fun x => by
    intro hx
    rw [if_pos hx]
    exact ⟨rfl, rfl, rfl, rfl, rfl, rfl, rfl, rfl, rfl, rfl, rfl⟩)

/-- C7 witness: the expired demo merchant is demoted with its end date,
payment status and fee untouched. -/
theorem C7_sweep_frame_witness :
    (applySuspend demoMerchant 100).status = "payment_pending" ∧
    (applySuspend demoMerchant 100).accessEndDate = demoMerchant.accessEndDate ∧
    (applySuspend demoMerchant 100).paymentStatus = demoMerchant.paymentStatus ∧
    (applySuspend demoMerchant 100).monthlyFee = demoMerchant.monthlyFee := by
  have h := C7_sweep_frame [demoMerchant] 100
  cases h with
  | cons h1 h2 =>
      have h3 := h1 (by decide)
      exact ⟨h3.1, h3.2.2.1, h3.2.2.2.1, h3.2.2.2.2.2.2.1⟩

/-- C2: a grant on an existing merchant activates it with the window
`[now, now + durationDays]`, records the duration and payment bookkeeping,
sets the next payment due one further cycle after the new end date, and
overwrites the stored monthly fee exactly when the fee argument is given. -/
theorem C2_grantAccess_effect (st : List Merchant) (mid : String) (d : Nat)
    (fee : Option Int) (now : Int) (m : Merchant) (hd : 0 < d)
    (h : lookupMerchant st mid = some m) :
    (grantMerchantAccess st mid d fee now).1 = some (applyGrant m d fee now) ∧
    (applyGrant m d fee now).status = "active" ∧
    (applyGrant m d fee now).paymentStatus = "paid" ∧
    (applyGrant m d fee now).accessStartDate = some now ∧
    (applyGrant m d fee now).accessEndDate = some (addDays now d) ∧
    (∀ s e, (applyGrant m d fee now).accessStartDate = some s →
        (applyGrant m d fee now).accessEndDate = some e → e = addDays s d) ∧
    (applyGrant m d fee now).accessDurationDays = some d ∧
    (applyGrant m d fee now).lastPaymentDate = some now ∧
    (applyGrant m d fee now).nextPaymentDue = some (addDays (addDays now d) d) ∧
    (fee = none → (applyGrant m d fee now).monthlyFee = m.monthlyFee) ∧
    (∀ f, fee = some f → (applyGrant m d fee now).monthlyFee = some f) := by
  have hl := lookupMerchant_map_update st mid
    (fun x => applyGrant x d fee now) (fun x => rfl)
  refine ⟨?_, rfl, rfl, rfl, rfl, ?_, rfl, rfl, rfl, ?_, ?_⟩
  · have e : (grantMerchantAccess st mid d fee now).1
        = lookupMerchant
            (st.map fun x => if x.id == mid then applyGrant x d fee now else x) mid := rfl
    rw [e, hl, h]
    rfl
  · intro s e hs he
    have hs2 : now = s := Option.some.inj hs
    have he2 : addDays now d = e := Option.some.inj he
    rw [← hs2, ← he2]
  · intro hf
    subst hf
    rfl
  · intro f hf
    subst hf
    rfl

/-- C2 witness: granting 10 days with a fee override to the pending demo
merchant at time 0. -/
theorem C2_grantAccess_effect_witness :
    (grantMerchantAccess [demoPendingMerchant] "m2" 10 (some 7000) 0).1
        = some (applyGrant demoPendingMerchant 10 (some 7000) 0) ∧
    (applyGrant demoPendingMerchant 10 (some 7000) 0).accessEndDate
        = some (addDays 0 10) ∧
    (applyGrant demoPendingMerchant 10 (some 7000) 0).monthlyFee = some 7000 :=
  ⟨(C2_grantAccess_effect [demoPendingMerchant] "m2" 10 (some 7000) 0
      demoPendingMerchant (by decide) (by decide)).1,
   (C2_grantAccess_effect [demoPendingMerchant] "m2" 10 (some 7000) 0
      demoPendingMerchant (by decide) (by decide)).2.2.2.2.1,
   (C2_grantAccess_effect [demoPendingMerchant] "m2" 10 (some 7000) 0
      demoPendingMerchant (by decide) (by decide)).2.2.2.2.2.2.2.2.2.2 7000 rfl⟩

/-- C6: a grant on a nonexistent id returns no merchant and leaves the store
exactly as it was (no record is created); each stored row is either untouched
or carries the complete grant update, and for an existing merchant a reader
looking the id up afterwards sees the fully updated record. -/
theorem C6_grant_notFound_atomic (st : List Merchant) (mid : String) (d : Nat)
    (fee : Option Int) (now : Int) :
    (lookupMerchant st mid = none →
        (grantMerchantAccess st mid d fee now).1 = none ∧
        (grantMerchantAccess st mid d fee now).2 = st) ∧
    List.Forall₂ (fun x x2 => x2 = x ∨ x2 = applyGrant x d fee now)
      st (grantMerchantAccess st mid d fee now).2 ∧
    (∀ m, lookupMerchant st mid = some m →
        lookupMerchant (grantMerchantAccess st mid d fee now).2 mid
          = some (applyGrant m d fee now)) := by
  have hl := lookupMerchant_map_update st mid
    (fun x => applyGrant x d fee now) (fun x => rfl)
  have e1 : (grantMerchantAccess st mid d fee now).1
      = lookupMerchant
          (st.map fun x => if x.id == mid then applyGrant x d fee now else x) mid := rfl
  have e2 : (grantMerchantAccess st mid d fee now).2
      = st.map (fun x => if x.id == mid then applyGrant x d fee now else x) := rfl
  refine ⟨?_, ?_, ?_⟩
  · intro h
    constructor
    · rw [e1, hl, h]
      rfl
    · rw [e2]
      exact map_update_of_none st _ _ (List.find?_eq_none.mp h)
  · rw [e2]
    exact forall2_map_self st _ _ (fun x => by
      by_cases hx : (x.id == mid) = true
      · rw [if_pos hx]
        exact Or.inr rfl
      · rw [if_neg hx]
        exact Or.inl rfl)
  · intro m h
    rw [e2, hl, h]
    rfl

/-- C6 witness: granting against an absent id "zz" returns `none` and keeps
the one-row store intact; granting against the present id "m1" makes the
fully granted record visible to a reader. -/
theorem C6_grant_notFound_atomic_witness :
    ((grantMerchantAccess [demoMerchant] "zz" 10 none 0).1 = none ∧
     (grantMerchantAccess [demoMerchant] "zz" 10 none 0).2 = [demoMerchant]) ∧
    lookupMerchant (grantMerchantAccess [demoMerchant] "m1" 10 none 0).2 "m1"
        = some (applyGrant demoMerchant 10 none 0) :=
  ⟨(C6_grant_notFound_atomic [demoMerchant] "zz" 10 none 0).1 (by decide),
   (C6_grant_notFound_atomic [demoMerchant] "m1" 10 none 0).2.2
     demoMerchant (by decide)⟩

/-- C8 counterexample: suspending the demo merchant at time 5 does not leave
every non-status field unchanged — the stored record's `updatedAt` moves
from 0 to 5, so the returned record differs from the claim's prediction. -/
theorem C8_counterexample :
    (suspendMerchantAccess [demoMerchant] "m1" 5).1
        ≠ some { demoMerchant with status := "payment_pending" } ∧
    Option.map (fun r => r.updatedAt) (suspendMerchantAccess [demoMerchant] "m1" 5).1
        = some 5 ∧
    demoMerchant.updatedAt = 0 := by decide

/-- C8 (amended): suspending an existing merchant sets `status` to
`payment_pending` and refreshes the `updatedAt` bookkeeping timestamp, and
leaves every other field — in particular `accessEndDate` and
`paymentStatus` — unchanged. -/
theorem C8_suspend_effect (st : List Merchant) (mid : String) (now : Int)
    (m : Merchant) (h : lookupMerchant st mid = some m) :
    (suspendMerchantAccess st mid now).1 = some (applySuspend m now) ∧
    (applySuspend m now).status = "payment_pending" ∧
    (applySuspend m now).updatedAt = now ∧
    (applySuspend m now).paymentStatus = m.paymentStatus ∧
    (applySuspend m now).accessStartDate = m.accessStartDate ∧
    (applySuspend m now).accessEndDate = m.accessEndDate ∧
    (applySuspend m now).accessDurationDays = m.accessDurationDays ∧
    (applySuspend m now).lastPaymentDate = m.lastPaymentDate ∧
    (applySuspend m now).nextPaymentDue = m.nextPaymentDue ∧
    (applySuspend m now).monthlyFee = m.monthlyFee ∧
    (applySuspend m now).planStatus = m.planStatus ∧
    (applySuspend m now).id = m.id := by
  have hl := lookupMerchant_map_update st mid
    (fun x => applySuspend x now) (fun x => rfl)
  refine ⟨?_, rfl, rfl, rfl, rfl, rfl, rfl, rfl, rfl, rfl, rfl, rfl⟩
  have e : (suspendMerchantAccess st mid now).1
      = lookupMerchant
          (st.map fun x => if x.id == mid then applySuspend x now else x) mid := rfl
  rw [e, hl, h]
  rfl

/-- C8 witness: suspending the demo merchant keeps its window and payment
status. -/
theorem C8_suspend_effect_witness :
    (suspendMerchantAccess [demoMerchant] "m1" 5).1 = some (applySuspend demoMerchant 5) ∧
    (applySuspend demoMerchant 5).accessEndDate = demoMerchant.accessEndDate ∧
    (applySuspend demoMerchant 5).paymentStatus = demoMerchant.paymentStatus :=
  ⟨(C8_suspend_effect [demoMerchant] "m1" 5 demoMerchant (by decide)).1,
   (C8_suspend_effect [demoMerchant] "m1" 5 demoMerchant (by decide)).2.2.2.2.2.1,
   (C8_suspend_effect [demoMerchant] "m1" 5 demoMerchant (by decide)).2.2.2.1⟩

/-! Field-level views of a renewed record. -/

/-- The renewed end date, written with the base date as a `max`. -/
theorem applyRenew_accessEndDate (m : Merchant) (now : Int) :
    (applyRenew m now).accessEndDate
      = some (addDays (max (m.accessEndDate.getD now) now)
          (durationOrDefault m.accessDurationDays)) := by
  have e : (applyRenew m now).accessEndDate
      = some (addDays
          (if now < m.accessEndDate.getD now then m.accessEndDate.getD now else now)
          (durationOrDefault m.accessDurationDays)) := rfl
  rw [e, ite_base_eq_max]

/-- The renewed next-payment-due date: one further cycle after the new end. -/
theorem applyRenew_nextPaymentDue (m : Merchant) (now : Int) :
    (applyRenew m now).nextPaymentDue
      = some (addDays
          (addDays (max (m.accessEndDate.getD now) now)
            (durationOrDefault m.accessDurationDays))
          (durationOrDefault m.accessDurationDays)) := by
  have e : (applyRenew m now).nextPaymentDue
      = some (addDays
          (addDays
            (if now < m.accessEndDate.getD now then m.accessEndDate.getD now else now)
            (durationOrDefault m.accessDurationDays))
          (durationOrDefault m.accessDurationDays)) := rfl
  rw [e, ite_base_eq_max]

/-- The renewed start date: the old one when present, otherwise now. -/
theorem applyRenew_accessStartDate (m : Merchant) (now : Int) :
    (applyRenew m now).accessStartDate = some (m.accessStartDate.getD now) := rfl

/-- A merchant stored with `accessDurationDays = 0`, the input on which the
claimed renewal formula and the code disagree. -/
def c1DurationZeroMerchant : Merchant :=
  { id := "m1", status := "payment_pending", paymentStatus := "pending",
    planStatus := "vip", accessStartDate := some 0, accessEndDate := some 100,
    accessDurationDays := some 0, lastPaymentDate := none, nextPaymentDue := none,
    monthlyFee := none, updatedAt := 0 }

/-- C1 counterexample: for a merchant whose stored `accessDurationDays` is 0
(present, not absent) renewed at time 50, the claim predicts the new end date
`baseDate + 0 days = max(100, 50) = 100`, but the code's `|| 30` fallback also
fires on 0, producing `baseDate + 30 days`. -/
theorem C1_counterexample :
    c1DurationZeroMerchant.accessDurationDays = some 0 ∧
    Option.map (fun r => r.accessEndDate)
        (renewMerchantAccess [c1DurationZeroMerchant] "m1" 50).1
      = some (some (addDays 100 30)) ∧
    addDays 100 30 ≠ addDays 100 0 := by decide

/-- C1 (amended): for every existing merchant, renewal extends from
`baseDate = max(accessEndDate, now)` (now when the end date is absent) by
`accessDurationDays` days — falling back to 30 days when the stored duration
is absent *or zero* — sets `nextPaymentDue` one further cycle after the new
end date, sets status active / paymentStatus paid / lastPaymentDate now,
preserves `accessStartDate` when already set (otherwise sets it to now), and
the new end date is never earlier than the old one. -/
theorem C1_renewAccess_effect (st : List Merchant) (mid : String) (now : Int)
    (m : Merchant) (h : lookupMerchant st mid = some m) :
    (renewMerchantAccess st mid now).1 = some (applyRenew m now) ∧
    (applyRenew m now).accessEndDate
        = some (addDays (max (m.accessEndDate.getD now) now)
            (durationOrDefault m.accessDurationDays)) ∧
    (applyRenew m now).nextPaymentDue
        = some (addDays
            (addDays (max (m.accessEndDate.getD now) now)
              (durationOrDefault m.accessDurationDays))
            (durationOrDefault m.accessDurationDays)) ∧
    (applyRenew m now).status = "active" ∧
    (applyRenew m now).paymentStatus = "paid" ∧
    (applyRenew m now).lastPaymentDate = some now ∧
    (∀ s, m.accessStartDate = some s →
        (applyRenew m now).accessStartDate = some s) ∧
    (m.accessStartDate = none → (applyRenew m now).accessStartDate = some now) ∧
    (∀ e, m.accessEndDate = some e →
        ∃ e2, (applyRenew m now).accessEndDate = some e2 ∧ e ≤ e2) := by
  refine ⟨?_, applyRenew_accessEndDate m now, applyRenew_nextPaymentDue m now,
    rfl, rfl, rfl, ?_, ?_, ?_⟩
  · have hl := lookupMerchant_map_update st mid (applyRenewRow m now) (fun x => rfl)
    have e : renewMerchantAccess st mid now
        = (lookupMerchant
            (st.map fun x => if x.id == mid then applyRenewRow m now x else x) mid,
           st.map fun x => if x.id == mid then applyRenewRow m now x else x) := by
      unfold renewMerchantAccess
      rw [h]
    rw [e]
    show lookupMerchant _ mid = _
    rw [hl, h]
    rfl
  · intro s hs
    rw [applyRenew_accessStartDate, hs]
    rfl
  · intro hs
    rw [applyRenew_accessStartDate, hs]
    rfl
  · intro e he
    refine ⟨_, applyRenew_accessEndDate m now, ?_⟩
    rw [he]
    exact le_trans (le_max_left e now) (le_addDays _ _)

/-- C1 witness: the demo merchant (window `[0,10]`, duration 30) renewed
at time 5 extends to `10 + 30 days`, not earlier than the old end. -/
theorem C1_renewAccess_effect_witness :
    (renewMerchantAccess [demoMerchant] "m1" 5).1 = some (applyRenew demoMerchant 5) ∧
    (applyRenew demoMerchant 5).accessEndDate
        = some (addDays (max ((demoMerchant.accessEndDate).getD 5) 5)
            (durationOrDefault demoMerchant.accessDurationDays)) :=
  ⟨(C1_renewAccess_effect [demoMerchant] "m1" 5 demoMerchant (by decide)).1,
   (C1_renewAccess_effect [demoMerchant] "m1" 5 demoMerchant (by decide)).2.1⟩

/-- The renewal base date is at least `now`. -/
theorem now_le_base (c now : Int) : now ≤ if now < c then c else now := by
  by_cases hc : now < c
  · rw [if_pos hc]
    exact le_of_lt hc
  · rw [if_neg hc]

/-- The renewal base date is at least the current end date. -/
theorem endDate_le_base (c now : Int) : c ≤ if now < c then c else now := by
  by_cases hc : now < c
  · rw [if_pos hc]
  · rw [if_neg hc]
    exact le_of_not_lt hc

/-- An admin access-settings payload that pushes the end date below the
stored start date: `{...settings}` performs no validation. -/
def c5Payload : AccessSettings := { accessEndDate := some (some (-1)) }

/-- A merchant with a far-future `accessStartDate` and no `accessEndDate`:
the claimed invariant holds vacuously, but renewal sets an end date of
`now + 30 days`, below the preserved start date. -/
def c5FutureStartMerchant : Merchant :=
  { id := "m3", status := "payment_pending", paymentStatus := "pending",
    planStatus := "vip", accessStartDate := some 10000000000000,
    accessEndDate := none, accessDurationDays := none, lastPaymentDate := none,
    nextPaymentDue := none, monthlyFee := none, updatedAt := 0 }

/-- C5 counterexample: the invariant `accessEndDate ≥ accessStartDate` is
not preserved by every lifecycle operation.  An admin access-settings update
can set the end date below the start date of a merchant that satisfied the
invariant, and renewing a merchant with a far-future start and no end date
produces an end date below the preserved start date. -/
theorem C5_counterexample :
    accessWindowInv demoMerchant = true ∧
    Option.map accessWindowInv
        (updateMerchantAccessSettings [demoMerchant] "m1" c5Payload 0).1
      = some false ∧
    accessWindowInv c5FutureStartMerchant = true ∧
    Option.map accessWindowInv
        (renewMerchantAccess [c5FutureStartMerchant] "m3" 0).1
      = some false := by decide

/-- C5 (amended): strengthen the invariant to well-formedness — whenever
`accessStartDate` is present, `accessEndDate` is present and `≥` it (which
implies the claimed `accessEndDate ≥ accessStartDate`).  This invariant is
established outright by every grant and preserved by renewal, suspension and
the expiry sweep; admin access-settings updates perform no validation and
can break it (see the counterexample). -/
theorem C5_window_invariant :
    (∀ m2, accessWindowWF m2 = true → accessWindowInv m2 = true) ∧
    (∀ m2 d fee now, accessWindowWF (applyGrant m2 d fee now) = true) ∧
    (∀ m2 now, accessWindowWF m2 = true → accessWindowWF (applyRenew m2 now) = true) ∧
    (∀ m2 now, accessWindowWF (applySuspend m2 now) = accessWindowWF m2) ∧
    (∀ st now m2, m2 ∈ (processExpiredAccess st now).2 →
        (∀ m3 ∈ st, accessWindowWF m3 = true) → accessWindowWF m2 = true) := by
  refine ⟨?_, ?_, ?_, ?_, ?_⟩
  · intro m2 hw
    rcases he2 : m2.accessEndDate with _ | e <;>
      rcases hs2 : m2.accessStartDate with _ | s <;>
        simp_all [accessWindowWF, accessWindowInv]
  · intro m2 d fee now
    have e : accessWindowWF (applyGrant m2 d fee now)
        = decide (now ≤ addDays now d) := rfl
    rw [e, decide_eq_true_eq]
    exact le_addDays now d
  · intro m2 now hw
    have e : accessWindowWF (applyRenew m2 now)
        = decide (m2.accessStartDate.getD now ≤
            addDays
              (if now < m2.accessEndDate.getD now then m2.accessEndDate.getD now else now)
              (durationOrDefault m2.accessDurationDays)) := rfl
    rw [e, decide_eq_true_eq]
    rcases hs2 : m2.accessStartDate with _ | s
    · exact le_trans (now_le_base _ now) (le_addDays _ _)
    · unfold accessWindowWF at hw
      rw [hs2] at hw
      rcases he2 : m2.accessEndDate with _ | e2
      · rw [he2] at hw
        exact absurd hw Bool.false_ne_true
      · rw [he2] at hw
        have hse : s ≤ e2 := of_decide_eq_true hw
        exact le_trans hse (le_trans (endDate_le_base _ now) (le_addDays _ _))
  · intro m2 now
    exact accessWindowWF_applySuspend m2 now
  · intro st now m2 hm2 hall
    unfold processExpiredAccess at hm2
    obtain ⟨x, hx, rfl⟩ := List.mem_map.mp hm2
    by_cases hxe : expiredActive x now = true
    · rw [if_pos hxe, accessWindowWF_applySuspend]
      exact hall x hx
    · rw [if_neg hxe]
      exact hall x hx

/-- C5 witness: renewing the well-formed demo merchant keeps the window
well-formed, and the demo merchant satisfies the claimed invariant. -/
theorem C5_window_invariant_witness :
    accessWindowWF (applyRenew demoMerchant 5) = true ∧
    accessWindowInv demoMerchant = true :=
  ⟨C5_window_invariant.2.2.1 demoMerchant 5 (by decide),
   C5_window_invariant.1 demoMerchant (by decide)⟩

set_option maxRecDepth 8000

/-- C9: evaluation of the polling flow.  The interval budget times the
3-second period is exactly the 30-minute ceiling, a gateway that never
reports a terminal status makes the loop time out (polling does stop), a run
with transient fetch errors keeps polling and still terminates at the first
`approved`, and a `rejected` answer terminates the loop as failed.  However,
on timeout the final UI payment status remains `"processing"` — the timeout
handler compares the stale captured `paymentStatus` value `"pending"` against
`"processing"` and therefore never runs `setPaymentStatus('failed')`, so the
failure/retry screen the claim describes is not presented. -/
theorem C9_poll_timeout_divergence :
    pollTickLimit * pollIntervalMs = pollCeilingMs ∧
    runPoll (fun _ => GatewayTick.pending) pollTickLimit 0 = PollResult.timedOut ∧
    runPoll (fun k => if k < 5 then GatewayTick.fetchError else GatewayTick.approved)
        pollTickLimit 0 = PollResult.approvedAt 5 ∧
    runPoll (fun k => if k < 7 then GatewayTick.pending else GatewayTick.rejected)
        pollTickLimit 0 = PollResult.failedAt 7 ∧
    vipPollFinalUiStatus (fun _ => GatewayTick.pending) = "processing" ∧
    "processing" ≠ "failed" := by decide

/-- C10 witness: the dev backend's sweep on a concrete store is a no-op. -/
theorem C10_backend_divergence_witness :
    sqliteProcessExpiredAccess [demoMerchant] 100 = (0, [demoMerchant]) :=
  (C10_backend_divergence [demoMerchant] 100).1
